import Mathlib

/-!
# Verification of `generador_paleta.py`

A shallow embedding of the color-palette extraction pipeline of
`generador_paleta.py` (a Blender add-on that extracts dominant colors from an
image via k-means clustering, then filters near-duplicate centroids), together
with theorems settling the specification's claims about it.

Conventions of the embedding:
* colors are triples of exact rationals (`ℚ`), standing for the float64
  values of the Python code;
* the comparison `np.linalg.norm(a - b) < tol` (source line 61) is encoded
  without square roots as `0 < tol ∧ distSq a b < tol * tol`, which is
  equivalent over the reals because the Euclidean norm is nonnegative
  (lemma `isClose_iff_sqrt_lt` below makes the equivalence formal);
* external collaborators (PIL image loading/resizing, sklearn `KMeans`) are
  parameters of the pipeline function, constrained only by the facts the
  specification states about them.
-/

namespace GeneradorPaleta

/-- A color: an ordered triple of components.  The clusterer's raw centroids
use the 0–255 scale; after the division by 255 (source line 52) the components
lie in `[0,1]`. -/
structure Color where
  r : ℚ
  g : ℚ
  b : ℚ
deriving DecidableEq

/-- Squared Euclidean distance between two colors in RGB space;
`np.linalg.norm(new_color - existing_color)` of source line 60, squared. -/
def distSq (a b : Color) : ℚ :=
  (a.r - b.r) ^ 2 + (a.g - b.g) ^ 2 + (a.b - b.b) ^ 2

/-- The discard test of source line 61, `distance < tolerancia_unicos`,
encoded squared: for a nonnegative distance, `dist < tol` holds iff
`0 < tol` and `dist² < tol²`. -/
def isClose (a b : Color) (tol : ℚ) : Bool :=
  decide (0 < tol ∧ distSq a b < tol * tol)

/-- The acceptance test of source lines 57–63: a candidate is `unique` iff it
is not close to any already-accepted color (vacuously true when the accepted
list is empty). -/
def acepta (acc : List Color) (c : Color) (tol : ℚ) : Bool :=
  acc.all (fun e => ! isClose c e tol)

/-- The loop of source lines 56–65, with the accepted list
(`colores_finales_unicos`) as explicit accumulator. -/
def dedupLoop (tol : ℚ) : List Color → List Color → List Color
  | acc, [] => acc
  | acc, c :: rest =>
      if acepta acc c tol then dedupLoop tol (acc ++ [c]) rest
      else dedupLoop tol acc rest

/-- The near-duplicate filter of source lines 55–66 (the spec's
`PaletteDeduplicator.deduplicate`): greedy single pass over the centroids,
starting from an empty accepted list. -/
def deduplicate (centroids : List Color) (tol : ℚ) : List Color :=
  dedupLoop tol [] centroids

/-- The spec's own wording of the algorithm (§4.3): accept a candidate iff
the accepted list is empty or its minimum distance to the accepted colors is
`≥ tolerance`; `tol ≤ dist` is encoded squared
(`tol ≤ 0 ∨ tol * tol ≤ dist²`). -/
def specAcepta (acc : List Color) (c : Color) (tol : ℚ) : Bool :=
  acc.all (fun e => decide (tol ≤ 0 ∨ tol * tol ≤ distSq c e))

/-- Loop of the spec-worded greedy algorithm. -/
def specDedupLoop (tol : ℚ) : List Color → List Color → List Color
  | acc, [] => acc
  | acc, c :: rest =>
      if specAcepta acc c tol then specDedupLoop tol (acc ++ [c]) rest
      else specDedupLoop tol acc rest

/-- The spec-worded deduplicator (§4.3), for comparison with `deduplicate`. -/
def specDeduplicate (centroids : List Color) (tol : ℚ) : List Color :=
  specDedupLoop tol [] centroids

lemma distSq_nonneg (a b : Color) : 0 ≤ distSq a b := by
  have h1 : (0:ℚ) ≤ (a.r - b.r) ^ 2 := sq_nonneg _
  have h2 : (0:ℚ) ≤ (a.g - b.g) ^ 2 := sq_nonneg _
  have h3 : (0:ℚ) ≤ (a.b - b.b) ^ 2 := sq_nonneg _
  unfold distSq; linarith

lemma distSq_comm (a b : Color) : distSq a b = distSq b a := by
  unfold distSq; ring

/-- The squared encoding of the discard test agrees with the genuine
Euclidean-distance comparison of source line 61. -/
lemma isClose_iff_sqrt_lt (a b : Color) (tol : ℚ) :
    isClose a b tol = true ↔ Real.sqrt ((distSq a b : ℚ) : ℝ) < (tol : ℝ) := by
  unfold isClose
  rcases le_or_lt tol 0 with h | h
  · constructor
    · intro hc
      simp only [decide_eq_true_eq] at hc
      exact absurd hc.1 (not_lt.mpr h)
    · intro hc
      exfalso
      have hnn : (0:ℝ) ≤ Real.sqrt ((distSq a b : ℚ) : ℝ) := Real.sqrt_nonneg _
      have htol : ((tol : ℚ) : ℝ) ≤ 0 := by exact_mod_cast h
      linarith
  · have hsq : Real.sqrt ((distSq a b : ℚ) : ℝ) < (tol : ℝ) ↔
        ((distSq a b : ℚ) : ℝ) < ((tol : ℚ) : ℝ) ^ 2 :=
      Real.sqrt_lt' (by exact_mod_cast h)
    simp only [decide_eq_true_eq, hsq]
    constructor
    · intro hc
      have := hc.2
      have : ((distSq a b : ℚ) : ℝ) < ((tol * tol : ℚ) : ℝ) := by exact_mod_cast this
      calc ((distSq a b : ℚ) : ℝ) < ((tol * tol : ℚ) : ℝ) := this
        _ = ((tol : ℚ) : ℝ) ^ 2 := by push_cast; ring
    · intro hc
      refine ⟨h, ?_⟩
      have : ((distSq a b : ℚ) : ℝ) < ((tol * tol : ℚ) : ℝ) := by
        calc ((distSq a b : ℚ) : ℝ) < ((tol : ℚ) : ℝ) ^ 2 := hc
          _ = ((tol * tol : ℚ) : ℝ) := by push_cast; ring
      exact_mod_cast this

/-- The loop only ever appends: its result is the accumulator followed by a
subsequence of the remaining input. -/
lemma dedupLoop_append_sublist (tol : ℚ) :
    ∀ (cs acc : List Color), ∃ t, dedupLoop tol acc cs = acc ++ t ∧ t.Sublist cs := by
  intro cs
  induction cs with
  | nil => intro acc; exact ⟨[], by simp [dedupLoop], List.Sublist.refl _⟩
  | cons c rest ih =>
      intro acc
      by_cases h : acepta acc c tol = true
      · obtain ⟨t, ht, hsub⟩ := ih (acc ++ [c])
        refine ⟨c :: t, ?_, List.Sublist.cons₂ c hsub⟩
        simp only [dedupLoop, h, if_true]
        rw [ht]
        simp
      · obtain ⟨t, ht, hsub⟩ := ih acc
        refine ⟨t, ?_, List.Sublist.cons c hsub⟩
        simp only [dedupLoop, h]
        simpa using ht

/-- The deduplicated palette is a subsequence of the input centroids. -/
lemma deduplicate_sublist (cs : List Color) (tol : ℚ) :
    (deduplicate cs tol).Sublist cs := by
  obtain ⟨t, ht, hsub⟩ := dedupLoop_append_sublist tol cs []
  unfold deduplicate
  rw [ht]
  simpa using hsub

lemma deduplicate_length_le (cs : List Color) (tol : ℚ) :
    (deduplicate cs tol).length ≤ cs.length :=
  (deduplicate_sublist cs tol).length_le

lemma deduplicate_mem (cs : List Color) (tol : ℚ) :
    ∀ x ∈ deduplicate cs tol, x ∈ cs :=
  fun _ hx => (deduplicate_sublist cs tol).subset hx

/-- With positive tolerance, the loop preserves the invariant that all
accepted colors are pairwise at squared distance `≥ tol²`. -/
lemma dedupLoop_pairwise (tol : ℚ) (htol : 0 < tol) :
    ∀ (cs acc : List Color),
      acc.Pairwise (fun a b => tol * tol ≤ distSq a b) →
      (dedupLoop tol acc cs).Pairwise (fun a b => tol * tol ≤ distSq a b) := by
  intro cs
  induction cs with
  | nil => intro acc hacc; exact hacc
  | cons c rest ih =>
      intro acc hacc
      by_cases h : acepta acc c tol = true
      · simp only [dedupLoop, h, if_true]
        refine ih (acc ++ [c]) ?_
        rw [List.pairwise_append]
        refine ⟨hacc, List.pairwise_singleton _ _, ?_⟩
        intro a ha b hb
        have hb' : b = c := by simpa using hb
        subst hb'
        have := (List.all_eq_true.mp h) a ha
        simp only [Bool.not_eq_true', isClose, decide_eq_false_iff_not,
          not_and, not_lt] at this
        rw [distSq_comm]
        exact this htol
      · simp only [dedupLoop, h]
        simpa using ih acc hacc

/-- At tolerance zero nothing is ever close, so the loop accepts everything. -/
lemma dedupLoop_tol_zero :
    ∀ (cs acc : List Color), dedupLoop 0 acc cs = acc ++ cs := by
  intro cs
  induction cs with
  | nil => intro acc; simp [dedupLoop]
  | cons c rest ih =>
      intro acc
      have hacc : acepta acc c 0 = true := by
        simp [acepta, isClose]
      simp only [dedupLoop, hacc, if_true, ih]
      simp

/-- The two acceptance tests coincide:
`¬(dist < tol)` is the same as `tol ≤ dist`. -/
lemma acepta_eq_specAcepta (acc : List Color) (c : Color) (tol : ℚ) :
    acepta acc c tol = specAcepta acc c tol := by
  unfold acepta specAcepta
  congr 1
  funext e
  simp only [isClose]
  rw [← decide_not]
  apply decide_eq_decide.mpr
  constructor
  · intro h
    rcases not_and_or.mp h with h1 | h2
    · exact Or.inl (not_lt.mp h1)
    · exact Or.inr (not_lt.mp h2)
  · intro h hc
    rcases h with h1 | h2
    · exact absurd hc.1 (not_lt.mpr h1)
    · exact absurd hc.2 (not_lt.mpr h2)

lemma dedupLoop_eq_specDedupLoop (tol : ℚ) :
    ∀ (cs acc : List Color), dedupLoop tol acc cs = specDedupLoop tol acc cs := by
  intro cs
  induction cs with
  | nil => intro acc; rfl
  | cons c rest ih =>
      intro acc
      simp only [dedupLoop, specDedupLoop, acepta_eq_specAcepta]
      by_cases h : specAcepta acc c tol = true
      · simp only [h, if_true, ih]
      · simp only [h, if_false, ih]

/-- A nonempty input always yields a palette starting with the first
centroid: the first candidate is accepted against the empty list. -/
lemma deduplicate_cons (c : Color) (cs : List Color) (tol : ℚ) :
    ∃ t, deduplicate (c :: cs) tol = c :: t := by
  have hacc : acepta [] c tol = true := by simp [acepta]
  unfold deduplicate
  simp only [dedupLoop, hacc, if_true]
  obtain ⟨t, ht, _⟩ := dedupLoop_append_sublist tol cs [c]
  exact ⟨t, by simpa using ht⟩

/-! ## The pipeline of `extraer_paleta_de_imagen` (source lines 31–75) -/

/-- A raw decoded pixel: one 0–255 sample per RGB channel
(the `'RGB'`-converted image of source line 36). -/
structure RGB255 where
  r : ℕ
  g : ℕ
  b : ℕ
deriving DecidableEq

/-- A decoded image: its dimensions and its row-major flattened pixels
(the `data.reshape(-1, 3)` view of source line 47). -/
structure RGBImage where
  width : ℕ
  height : ℕ
  pix : List RGB255
deriving DecidableEq

/-- PIL resampling filters (only the distinction the spec draws matters:
`nearest` versus the smoothing filters). -/
inductive ResampleFilter where
  | nearest
  | bilinear
  | lanczos
deriving DecidableEq

/-- The filter the source passes to `img.resize` (line 42): `Image.LANCZOS`. -/
def usedFilter : ResampleFilter := ResampleFilter.lanczos

/-- Python `int()`: truncation toward zero. -/
def int_trunc (q : ℚ) : ℤ :=
  if 0 ≤ q then ⌊q⌋ else -⌊-q⌋

/-- One resized dimension, `int(dim * factor)` of source lines 40–41. -/
def resizedDim (d : ℕ) (f : ℚ) : ℕ :=
  (int_trunc ((d : ℚ) * f)).toNat

/-- The dimensions handed to `img.resize`: the branch of source lines 38–45
resizes only when `0 < factor < 1`, otherwise keeps the native size. -/
def sampleDims (w h : ℕ) (f : ℚ) : ℕ × ℕ :=
  if 0 < f ∧ f < 1 then (resizedDim w f, resizedDim h f) else (w, h)

/-- `kmeans.cluster_centers_ / 255.0`, source line 52, per centroid. -/
def normalizar (c : Color) : Color :=
  ⟨c.r / 255, c.g / 255, c.b / 255⟩

/-- The two `except` branches of source lines 70–75: `Image.open`/decoding
either raises `FileNotFoundError` or some other exception. -/
inductive LoadError where
  | fileNotFound
  | decodeError
deriving DecidableEq

/-- A failure raised by `kmeans.fit` (e.g. sklearn's `ValueError` when
`n_samples < n_clusters`); swallowed by the generic handler of line 73. -/
inductive KMeansFailure where
  | valueError
deriving DecidableEq

/-- The external clusterer (sklearn `KMeans(...).fit`), abstracted as a
function of the pixel list, `n_clusters`, `random_state` and `n_init`,
returning the raw `cluster_centers_` (0–255 scale) or raising.
`fit_count` records the library fact the spec states in §4.2: a successful
fit returns exactly `n_clusters` centers. -/
structure KMeansImpl where
  fit : List RGB255 → ℕ → ℕ → ℕ → Except KMeansFailure (List Color)
  fit_count : ∀ px k seed ninit cs, fit px k seed ninit = Except.ok cs →
    cs.length = k

/-- The flattened pixels handed to the clusterer (source lines 38–47): the
image is resized — through the external `resizeImpl` collaborator, with the
dimensions of `sampleDims` and the LANCZOS filter — only when
`0 < factor < 1`, and then flattened row-major. -/
def pixelData (resizeImpl : RGBImage → ℕ → ℕ → ResampleFilter → RGBImage)
    (img : RGBImage) (reescalar_factor : ℚ) : List RGB255 :=
  (if 0 < reescalar_factor ∧ reescalar_factor < 1 then
      resizeImpl img (sampleDims img.width img.height reescalar_factor).1
        (sampleDims img.width img.height reescalar_factor).2 usedFilter
    else img).pix

/-- Shallow embedding of `extraer_paleta_de_imagen` (source lines 31–75).

External collaborators are parameters: `resizeImpl` stands for PIL's
`img.resize` (its output pixels are opaque to the core), `km` for sklearn's
`KMeans`, and `cargar` for the outcome of `Image.open` + `convert('RGB')`
(lines 35–36).  `ambientSeed` stands for the ambient randomness a
non-seeded clusterer would consume; faithful to line 49, the code passes the
literal `random_state=0` (and `n_init=10`) instead, so `ambientSeed` is
never consulted.  Both `except` branches (lines 70–75) return `None`,
embedded as `none`. -/
def extraer_paleta_de_imagen
    (resizeImpl : RGBImage → ℕ → ℕ → ResampleFilter → RGBImage)
    (km : KMeansImpl) (ambientSeed : ℕ)
    (cargar : Except LoadError RGBImage)
    (num_colores : ℕ) (reescalar_factor tolerancia_unicos : ℚ) :
    Option (List Color) :=
  match cargar with
  | Except.error _ => none
  | Except.ok img =>
      match km.fit (pixelData resizeImpl img reescalar_factor)
          num_colores 0 10 with
      | Except.error _ => none
      | Except.ok centers =>
          some (deduplicate (centers.map normalizar) tolerancia_unicos)

/-! ### Concrete instances used to exercise the pipeline -/

/-- A trivial resize collaborator: returns the image unchanged. -/
def idResize : RGBImage → ℕ → ℕ → ResampleFilter → RGBImage :=
  fun img _ _ _ => img

/-- A clusterer that always succeeds, returning `k` copies of black. -/
def kmConst : KMeansImpl where
  fit := fun _ k _ _ => Except.ok (List.replicate k ⟨0, 0, 0⟩)
  fit_count := by
    intro px k seed ninit cs h
    cases h
    exact List.length_replicate _ _

/-- A clusterer that always raises (as sklearn does when
`n_samples < n_clusters`). -/
def kmFail : KMeansImpl where
  fit := fun _ _ _ _ => Except.error KMeansFailure.valueError
  fit_count := by intro px k seed ninit cs h; cases h

/-- A tiny 2×2 test image. -/
def imgTest : RGBImage :=
  ⟨2, 2, [⟨0, 0, 0⟩, ⟨255, 255, 255⟩, ⟨0, 0, 0⟩, ⟨255, 255, 255⟩]⟩

/-- A 2×1 image with exactly two distinct pixel colors (spec Scenario C). -/
def imgDosColores : RGBImage :=
  ⟨2, 1, [⟨0, 0, 0⟩, ⟨255, 255, 255⟩]⟩

/-- Every successful extraction is the deduplication of the normalized
centers of a successful fit with exactly `num_colores` centers. -/
lemma extraer_ok_cases
    (R : RGBImage → ℕ → ℕ → ResampleFilter → RGBImage) (km : KMeansImpl)
    (seed : ℕ) (cargar : Except LoadError RGBImage) (k : ℕ) (f tol : ℚ)
    (p : List Color)
    (hp : extraer_paleta_de_imagen R km seed cargar k f tol = some p) :
    ∃ centers : List Color, centers.length = k ∧
      p = deduplicate (centers.map normalizar) tol := by
  rcases cargar with e | img
  · exact absurd hp (by simp [extraer_paleta_de_imagen])
  · simp only [extraer_paleta_de_imagen] at hp
    rcases hfit : km.fit (pixelData R img f) k 0 10 with e | centers
    · rw [hfit] at hp
      exact absurd hp (by simp)
    · rw [hfit] at hp
      simp only [Option.some.injEq] at hp
      exact ⟨centers, km.fit_count _ _ _ _ _ hfit, hp.symm⟩

/-- Concrete run of the pipeline on the constant clusterer, tolerance 1:
the eight identical centers collapse to a single palette color. -/
lemma eval_extraer_const :
    extraer_paleta_de_imagen idResize kmConst 0 (Except.ok imgTest) 3 3 1 =
      some [normalizar ⟨0, 0, 0⟩] := by
  norm_num [extraer_paleta_de_imagen, kmConst, deduplicate, dedupLoop,
    acepta, isClose, distSq, normalizar, List.replicate]

/-- At tolerance zero the deduplicator is the identity. -/
lemma deduplicate_tol_zero (cs : List Color) : deduplicate cs 0 = cs := by
  have h := dedupLoop_tol_zero cs []
  simpa [deduplicate] using h

/-- Concrete run of the pipeline at tolerance 0: all three identical centers
are kept. -/
lemma eval_extraer_const0 :
    extraer_paleta_de_imagen idResize kmConst 0 (Except.ok imgTest) 3 3 0 =
      some (List.replicate 3 (normalizar ⟨0, 0, 0⟩)) := by
  simp [extraer_paleta_de_imagen, kmConst, deduplicate_tol_zero]

/-! ## Host-side cleanup and sphere creation (source lines 77–127, 161–176)

The Blender data model is embedded just deeply enough for the cleanup
contract: a material datablock carries a `users` reference count (the number
of mesh datablocks referencing it).  Two facts of the host collaborator are
reflected in the embedding: `bpy.data.objects.remove(obj, do_unlink=True)`
removes only the object, leaving the mesh datablock — and hence its
reference to the material — alive, so removing an object does not lower any
material's `users`; and `bpy.data.*.new` / name assignment uniquify a taken
name by appending a numeric suffix such as `.001`. -/

/-- Names are embedded as explicit character lists (Python `str` /
Blender datablock names); `String.data` links them to Lean string literals. -/
abbrev Nombre : Type := List Char

/-- Python `name.startswith(pre)`. -/
def empiezaCon (pre s : Nombre) : Bool := List.isPrefixOf pre s

/-- Python `pat in name` (substring containment). -/
def contiene (pat : Nombre) : Nombre → Bool
  | [] => List.isPrefixOf pat []
  | c :: rest => List.isPrefixOf pat (c :: rest) || contiene pat rest

/-- Source line 23. -/
def PREFIJO_NOMBRE_DEFAULT : Nombre := "Paleta_".data

/-- A material datablock: its name and its user (reference) count. -/
structure HostMat where
  name : Nombre
  users : ℕ
deriving DecidableEq

/-- The host scene data relevant to the add-on: material and object names. -/
structure HostState where
  mats : List HostMat
  objs : List Nombre
deriving DecidableEq

/-- Material selection of source lines 111–115: name starts with the default
or the current user-chosen name stem. -/
def matTargeted (current : Nombre) (m : HostMat) : Bool :=
  empiezaCon PREFIJO_NOMBRE_DEFAULT m.name || empiezaCon current m.name

/-- Object selection of source lines 120–125: also catches names containing
the legacy marker. -/
def objTargeted (current : Nombre) (o : Nombre) : Bool :=
  empiezaCon PREFIJO_NOMBRE_DEFAULT o || empiezaCon current o ||
    contiene "Color_Referencia_".data o

/-- `limpiar_materiales_paleta` (source lines 108–127): targeted materials
are removed only when `not mat.users` (line 117); targeted objects are
removed unconditionally. -/
def limpiar (current : Nombre) (s : HostState) : HostState :=
  { mats := s.mats.filter (fun m => !(matTargeted current m && m.users == 0)),
    objs := s.objs.filter (fun o => !objTargeted current o) }

/-- Python `f"{i:02d}"`. -/
def pad2 (i : ℕ) : Nombre :=
  if i < 10 then '0' :: Nat.toDigits 10 i else Nat.toDigits 10 i

/-- Blender's collision suffix: `.001`, `.002`, … -/
def sufijo (k : ℕ) : Nombre :=
  '.' :: (if k < 10 then '0' :: '0' :: Nat.toDigits 10 k
          else if k < 100 then '0' :: Nat.toDigits 10 k
          else Nat.toDigits 10 k)

/-- Candidate names Blender tries for a new datablock named `base`. -/
def candidatos (base : Nombre) (n : ℕ) : List Nombre :=
  base :: (List.range n).map (fun k => base ++ sufijo (k + 1))

/-- Blender's name uniquification: the first candidate not already taken
(there are more candidates than taken names, so one is always free). -/
def freshName (base : Nombre) (taken : List Nombre) : Nombre :=
  ((candidatos base (taken.length + 1)).filter
    (fun c => !taken.contains c)).headD base

/-- The loop of `crear_esferas_de_paleta` (source lines 91–106): per palette
color, one sphere object named `prefijo ++ pad2 i` and one new material with
the same requested name, assigned to the sphere's mesh — so the material's
user count is 1 (the mesh datablock references it, and
`bpy.data.objects.remove` would not release that reference). -/
def crearEsferasLoop (prefijo : Nombre) : ℕ → List Color → HostState → HostState
  | _, [], s => s
  | i, _ :: rest, s =>
      let nombre := prefijo ++ pad2 i
      let s1 : HostState := ⟨s.mats, s.objs ++ [freshName nombre s.objs]⟩
      let s2 : HostState :=
        ⟨s1.mats ++ [⟨freshName nombre (s1.mats.map HostMat.name), 1⟩], s1.objs⟩
      crearEsferasLoop prefijo (i + 1) rest s2

/-- `crear_esferas_de_paleta` (source lines 83–106). -/
def crearEsferas (colores : List Color) (prefijo : Nombre) (s : HostState) :
    HostState :=
  crearEsferasLoop prefijo 0 colores s

/-- One run of `IMAGEN_OT_GenerarPaleta.execute` in sphere mode after a
successful extraction (source lines 161–176): cleanup with the current name
stem, then sphere creation. -/
def ejecutar (colores : List Color) (prefijo : Nombre) (s : HostState) :
    HostState :=
  crearEsferas colores prefijo (limpiar prefijo s)

/-- Number of materials whose name begins with `p`. -/
def countMats (p : Nombre) (s : HostState) : ℕ :=
  (s.mats.filter (fun m => empiezaCon p m.name)).length

/-- Number of objects whose name begins with `p`. -/
def countObjs (p : Nombre) (s : HostState) : ℕ :=
  (s.objs.filter (fun o => empiezaCon p o)).length

/-! ## Claims -/

/-- **C1**: for every palette returned by a successful extraction with
positive tolerance, every pair of distinct palette colors is at Euclidean
distance at least the configured tolerance. -/
theorem extraccion_pares_distantes
    (R : RGBImage → ℕ → ℕ → ResampleFilter → RGBImage) (km : KMeansImpl)
    (seed : ℕ) (cargar : Except LoadError RGBImage) (k : ℕ) (f tol : ℚ)
    (p : List Color) (htol : 0 < tol)
    (hp : extraer_paleta_de_imagen R km seed cargar k f tol = some p) :
    p.Pairwise (fun a b => (tol : ℝ) ≤ Real.sqrt ((distSq a b : ℚ) : ℝ)) := by
  obtain ⟨centers, hlen, hdedup⟩ :=
    extraer_ok_cases R km seed cargar k f tol p hp
  subst hdedup
  have hq := dedupLoop_pairwise tol htol (centers.map normalizar) []
    List.Pairwise.nil
  refine List.Pairwise.imp ?_ hq
  intro a b hab
  rw [Real.le_sqrt' (by exact_mod_cast htol)]
  calc ((tol : ℚ) : ℝ) ^ 2 = ((tol * tol : ℚ) : ℝ) := by push_cast; ring
    _ ≤ ((distSq a b : ℚ) : ℝ) := by exact_mod_cast hab

/-- Witness for **C1** at a concrete run: tolerance 1, three identical
centers, yielding a one-color palette. -/
theorem extraccion_pares_distantes_testigo :
    (0 : ℚ) < 1 ∧
    ([normalizar ⟨0, 0, 0⟩] : List Color).Pairwise
      (fun a b => ((1 : ℚ) : ℝ) ≤ Real.sqrt ((distSq a b : ℚ) : ℝ)) :=
  ⟨by norm_num,
    extraccion_pares_distantes idResize kmConst 0 (Except.ok imgTest) 3 3 1 _
      (by norm_num) eval_extraer_const⟩

/-- **C2**: a successful extraction never returns more colors than the
requested cluster count `num_colores` (`targetColorCount`). -/
theorem extraccion_longitud_acotada
    (R : RGBImage → ℕ → ℕ → ResampleFilter → RGBImage) (km : KMeansImpl)
    (seed : ℕ) (cargar : Except LoadError RGBImage) (k : ℕ) (f tol : ℚ)
    (p : List Color)
    (hp : extraer_paleta_de_imagen R km seed cargar k f tol = some p) :
    p.length ≤ k := by
  obtain ⟨centers, hlen, hdedup⟩ :=
    extraer_ok_cases R km seed cargar k f tol p hp
  subst hdedup
  calc (deduplicate (centers.map normalizar) tol).length
      ≤ (centers.map normalizar).length :=
        deduplicate_length_le (centers.map normalizar) tol
    _ = centers.length := centers.length_map normalizar
    _ = k := hlen

/-- Witness for **C2** at a concrete run with `num_colores = 3`. -/
theorem extraccion_longitud_acotada_testigo :
    ([normalizar ⟨0, 0, 0⟩] : List Color).length ≤ 3 :=
  extraccion_longitud_acotada idResize kmConst 0 (Except.ok imgTest) 3 3 1 _
    eval_extraer_const

/-- **C3**: the deduplicator is exactly the spec's greedy single-pass
algorithm (accept iff the accepted list is empty or every accepted color is
at distance ≥ tolerance, first-seen wins), and its output is a subsequence
of the input centroid list, in input order. -/
theorem deduplicate_greedy_subsecuencia (cs : List Color) (tol : ℚ) :
    deduplicate cs tol = specDeduplicate cs tol ∧
    (deduplicate cs tol).Sublist cs :=
  ⟨dedupLoop_eq_specDedupLoop tol cs [], deduplicate_sublist cs tol⟩

/-- **C4**: at tolerance 0 the deduplicator accepts every centroid (the
strict `<` discard test can never fire), so a successful extraction returns
exactly the clusterer's `k` centroids. -/
theorem tolerancia_cero_sin_descartes :
    (∀ cs : List Color, deduplicate cs 0 = cs) ∧
    ∀ (R : RGBImage → ℕ → ℕ → ResampleFilter → RGBImage) (km : KMeansImpl)
      (seed : ℕ) (cargar : Except LoadError RGBImage) (k : ℕ) (f : ℚ)
      (p : List Color),
      extraer_paleta_de_imagen R km seed cargar k f 0 = some p →
      p.length = k := by
  refine ⟨deduplicate_tol_zero, ?_⟩
  intro R km seed cargar k f p hp
  obtain ⟨centers, hlen, hdedup⟩ :=
    extraer_ok_cases R km seed cargar k f 0 p hp
  rw [hdedup, deduplicate_tol_zero, centers.length_map normalizar]
  exact hlen

/-- Witness for **C4**: with `num_colores = 3` and tolerance 0, all three
(identical) centroids are returned. -/
theorem tolerancia_cero_sin_descartes_testigo :
    extraer_paleta_de_imagen idResize kmConst 0 (Except.ok imgTest) 3 3 0 =
      some (List.replicate 3 (normalizar ⟨0, 0, 0⟩)) ∧
    (List.replicate 3 (normalizar ⟨0, 0, 0⟩)).length = 3 :=
  ⟨eval_extraer_const0,
    tolerancia_cero_sin_descartes.2 idResize kmConst 0 (Except.ok imgTest)
      3 3 _ eval_extraer_const0⟩

/-- **C5**: extraction is deterministic.  The embedding makes the ambient
randomness a non-seeded clusterer would consume an explicit input; because
the source pins `random_state=0` (line 49), the result does not depend on
it, so two calls on identical image data and identical configuration return
identical palettes. -/
theorem extraccion_determinista
    (R : RGBImage → ℕ → ℕ → ResampleFilter → RGBImage) (km : KMeansImpl)
    (seed1 seed2 : ℕ) (cargar : Except LoadError RGBImage) (k : ℕ)
    (f tol : ℚ) :
    extraer_paleta_de_imagen R km seed1 cargar k f tol =
      extraer_paleta_de_imagen R km seed2 cargar k f tol := rfl

/-- Under `0 < f < 1` both dimensions become `⌊dim * f⌋` — with no 1-pixel
minimum. -/
lemma sampleDims_floor (w h : ℕ) (f : ℚ) (h0 : 0 < f) (h1 : f < 1) :
    sampleDims w h f = ((⌊(w : ℚ) * f⌋).toNat, (⌊(h : ℚ) * f⌋).toNat) := by
  have hw : (0 : ℚ) ≤ (w : ℚ) * f := mul_nonneg (Nat.cast_nonneg w) h0.le
  have hh : (0 : ℚ) ≤ (h : ℚ) * f := mul_nonneg (Nat.cast_nonneg h) h0.le
  simp [sampleDims, resizedDim, int_trunc, h0, h1, hw, hh]

/-- **C6** (amended): when `0 < downscaleFactor < 1` both dimensions are
resized to `floor(originalDim * factor)` — with **no** 1-pixel minimum — a
100×100 image at factor 1/2 yields a 50×50 grid, and the filter used is
LANCZOS, a smoothing filter, not nearest-neighbor. -/
theorem muestreo_dimensiones (w h : ℕ) (f : ℚ) (h0 : 0 < f) (h1 : f < 1) :
    sampleDims w h f = ((⌊(w : ℚ) * f⌋).toNat, (⌊(h : ℚ) * f⌋).toNat) ∧
    sampleDims 100 100 (1 / 2) = (50, 50) ∧
    usedFilter = ResampleFilter.lanczos ∧
    usedFilter ≠ ResampleFilter.nearest := by
  refine ⟨sampleDims_floor w h f h0 h1, ?_, rfl, by simp [usedFilter]⟩
  rw [sampleDims_floor 100 100 (1 / 2) (by norm_num) (by norm_num)]
  have h50 : ⌊((100 : ℕ) : ℚ) * (1 / 2 : ℚ)⌋ = (50 : ℤ) := by norm_num
  rw [h50]
  rfl

/-- **C6** counterexample: with the in-range factor 1/100 (the UI minimum
0.01) a 50×50 image is resized to 0×0 — the claimed 1-pixel minimum does
not exist in the code. -/
theorem muestreo_sin_minimo_un_pixel :
    (0 : ℚ) < 1 / 100 ∧ (1 : ℚ) / 100 < 1 ∧
    sampleDims 50 50 (1 / 100) = (0, 0) ∧
    ¬ 1 ≤ (sampleDims 50 50 (1 / 100)).1 := by
  have hdims : sampleDims 50 50 (1 / 100) = (0, 0) := by
    rw [sampleDims_floor 50 50 (1 / 100) (by norm_num) (by norm_num)]
    have hz : ⌊((50 : ℕ) : ℚ) * (1 / 100 : ℚ)⌋ = (0 : ℤ) := by
      rw [Int.floor_eq_zero_iff]
      constructor <;> norm_num
    rw [hz]
    rfl
  exact ⟨by norm_num, by norm_num, hdims, by rw [hdims]; omega⟩

/-- Witness for **C6** at `w = h = 100`, `f = 1/2`. -/
theorem muestreo_dimensiones_testigo :
    (0 : ℚ) < 1 / 2 ∧ (1 : ℚ) / 2 < 1 ∧
    (sampleDims 100 100 (1 / 2) =
        ((⌊(100 : ℕ) * (1 / 2 : ℚ)⌋).toNat, (⌊(100 : ℕ) * (1 / 2 : ℚ)⌋).toNat) ∧
      sampleDims 100 100 (1 / 2) = (50, 50) ∧
      usedFilter = ResampleFilter.lanczos ∧
      usedFilter ≠ ResampleFilter.nearest) :=
  ⟨by norm_num, by norm_num,
    muestreo_dimensiones 100 100 (1 / 2) (by norm_num) (by norm_num)⟩

/-- **C7** (amended): every load failure is caught and returns the untyped
sentinel `None` — never an uncaught fault — regardless of which of the two
failure kinds occurred. -/
theorem fallas_carga_devuelven_none
    (R : RGBImage → ℕ → ℕ → ResampleFilter → RGBImage) (km : KMeansImpl)
    (seed : ℕ) (err : LoadError) (k : ℕ) (f tol : ℚ) :
    extraer_paleta_de_imagen R km seed (Except.error err) k f tol = none :=
  rfl

/-- **C7** counterexample: at concrete inputs, an unresolvable image and any
other decode failure produce the very same caller-visible result `none`; no
distinct typed `ImageNotFound` / `ImageDecodeError` values reach the caller. -/
theorem errores_carga_indistinguibles :
    extraer_paleta_de_imagen idResize kmConst 0
        (Except.error LoadError.fileNotFound) 8 3 1 = none ∧
    extraer_paleta_de_imagen idResize kmConst 0
        (Except.error LoadError.decodeError) 8 3 1 = none ∧
    extraer_paleta_de_imagen idResize kmConst 0
        (Except.error LoadError.fileNotFound) 8 3 1 =
      extraer_paleta_de_imagen idResize kmConst 0
        (Except.error LoadError.decodeError) 8 3 1 :=
  ⟨rfl, rfl, rfl⟩

/-- **C8** (amended): when the clusterer raises (as sklearn's `fit` does
when asked for more clusters than samples), the generic handler catches it
and the call returns the untyped sentinel `None` — it does not crash, but no
`InsufficientSamples` typed error exists. -/
theorem falla_clustering_devuelve_none
    (R : RGBImage → ℕ → ℕ → ResampleFilter → RGBImage) (km : KMeansImpl)
    (seed : ℕ) (img : RGBImage) (k : ℕ) (f tol : ℚ)
    (hfail : ∀ px : List RGB255,
      km.fit px k 0 10 = Except.error KMeansFailure.valueError) :
    extraer_paleta_de_imagen R km seed (Except.ok img) k f tol = none := by
  simp [extraer_paleta_de_imagen, hfail]

/-- Witness for **C8** on a failing clusterer and the two-color image of
spec Scenario C with `num_colores = 10`. -/
theorem falla_clustering_devuelve_none_testigo :
    (∀ px : List RGB255,
      kmFail.fit px 10 0 10 = Except.error KMeansFailure.valueError) ∧
    extraer_paleta_de_imagen idResize kmFail 0 (Except.ok imgDosColores)
      10 3 1 = none :=
  ⟨fun _ => rfl,
    falla_clustering_devuelve_none idResize kmFail 0 imgDosColores 10 3 1
      (fun _ => rfl)⟩

/-- **C8** counterexample: at concrete inputs (the two-distinct-color image
with 10 requested clusters), a clustering failure yields `none`, the exact
same caller-visible value as a decode failure — there is no typed
`InsufficientSamples` error. -/
theorem falla_clustering_sin_error_tipado :
    extraer_paleta_de_imagen idResize kmFail 0 (Except.ok imgDosColores)
        10 3 1 = none ∧
    extraer_paleta_de_imagen idResize kmFail 0
        (Except.error LoadError.decodeError) 10 3 1 = none ∧
    extraer_paleta_de_imagen idResize kmFail 0 (Except.ok imgDosColores)
        10 3 1 =
      extraer_paleta_de_imagen idResize kmFail 0
        (Except.error LoadError.decodeError) 10 3 1 :=
  ⟨rfl, rfl, rfl⟩

/-- **C9** (amended): the cleanup pass removes every selected object, so
objects do not accumulate (two runs from an empty scene leave exactly one
object for a one-color palette); but a selected material is removed only
when its user count is zero, so any material still referenced — as every
palette material is, through the mesh of its sphere, which outlives the
object — survives cleanup, and materials accumulate across runs. -/
theorem limpieza_objetos_total_materiales_condicional
    (p : Nombre) (s : HostState) (m : HostMat)
    (hm : m ∈ s.mats) (hu : m.users ≠ 0) :
    ((limpiar p s).objs.all fun o => !objTargeted p o) = true ∧
    m ∈ (limpiar p s).mats ∧
    countObjs "Paleta_".data
      (ejecutar [⟨0, 0, 0⟩] "Paleta_".data
        (ejecutar [⟨0, 0, 0⟩] "Paleta_".data ⟨[], []⟩)) = 1 := by
  refine ⟨?_, ?_, by decide⟩
  · rw [List.all_eq_true]
    intro o ho
    exact (List.mem_filter.mp ho).2
  · apply List.mem_filter.mpr
    refine ⟨hm, ?_⟩
    have h0 : (m.users == 0) = false := by simpa using hu
    simp [h0]

/-- Witness for **C9**'s amended statement: a still-referenced material named
`Paleta_00` survives cleanup under the default name stem. -/
theorem limpieza_objetos_total_materiales_condicional_testigo :
    (⟨"Paleta_00".data, 1⟩ : HostMat) ∈
        ([⟨"Paleta_00".data, 1⟩] : List HostMat) ∧
    (1 : ℕ) ≠ 0 ∧
    (((limpiar "Paleta_".data ⟨[⟨"Paleta_00".data, 1⟩], []⟩).objs.all
        fun o => !objTargeted "Paleta_".data o) = true ∧
      (⟨"Paleta_00".data, 1⟩ : HostMat) ∈
        (limpiar "Paleta_".data ⟨[⟨"Paleta_00".data, 1⟩], []⟩).mats ∧
      countObjs "Paleta_".data
        (ejecutar [⟨0, 0, 0⟩] "Paleta_".data
          (ejecutar [⟨0, 0, 0⟩] "Paleta_".data ⟨[], []⟩)) = 1) :=
  ⟨by decide, by decide,
    limpieza_objetos_total_materiales_condicional "Paleta_".data
      ⟨[⟨"Paleta_00".data, 1⟩], []⟩ ⟨"Paleta_00".data, 1⟩
      (by decide) (by decide)⟩

/-- **C9** counterexample: a prefix-matching material with one user is not
removed by `limpiar`, and two consecutive runs on a one-color palette leave
two prefix-matching materials (`Paleta_00` and `Paleta_00.001`) instead of
the claimed single set. -/
theorem relanzar_acumula_materiales :
    limpiar "Paleta_".data ⟨[⟨"Paleta_00".data, 1⟩], []⟩ =
      ⟨[⟨"Paleta_00".data, 1⟩], []⟩ ∧
    countMats "Paleta_".data
      (ejecutar [⟨0, 0, 0⟩] "Paleta_".data
        (ejecutar [⟨0, 0, 0⟩] "Paleta_".data ⟨[], []⟩)) = 2 :=
  ⟨by decide, by decide⟩

/-- **C10**: the deduplicator's output on a nonempty centroid list is
nonempty and starts with the first input centroid; consequently a successful
extraction with a positive requested cluster count never returns an empty
palette. -/
theorem paleta_no_vacia :
    (∀ (c : Color) (cs : List Color) (tol : ℚ),
      deduplicate (c :: cs) tol ≠ [] ∧
      (deduplicate (c :: cs) tol).head? = some c) ∧
    ∀ (R : RGBImage → ℕ → ℕ → ResampleFilter → RGBImage) (km : KMeansImpl)
      (seed : ℕ) (cargar : Except LoadError RGBImage) (k : ℕ) (f tol : ℚ)
      (p : List Color),
      extraer_paleta_de_imagen R km seed cargar k f tol = some p → 0 < k →
      p ≠ [] := by
  constructor
  · intro c cs tol
    obtain ⟨t, ht⟩ := deduplicate_cons c cs tol
    rw [ht]
    exact ⟨by simp, rfl⟩
  · intro R km seed cargar k f tol p hp hk
    obtain ⟨centers, hlen, hdedup⟩ :=
      extraer_ok_cases R km seed cargar k f tol p hp
    subst hdedup
    rcases hcen : centers.map normalizar with _ | ⟨c, rest⟩
    · exfalso
      rcases centers with _ | ⟨c0, rest0⟩
      · simp at hlen
        omega
      · simp at hcen
    · obtain ⟨t, ht⟩ := deduplicate_cons c rest tol
      rw [ht]
      simp

/-- Witness for **C10** at a concrete successful run with
`num_colores = 3`. -/
theorem paleta_no_vacia_testigo :
    extraer_paleta_de_imagen idResize kmConst 0 (Except.ok imgTest) 3 3 1 =
      some [normalizar ⟨0, 0, 0⟩] ∧ 0 < 3 ∧
    ([normalizar ⟨0, 0, 0⟩] : List Color) ≠ [] :=
  ⟨eval_extraer_const, by decide,
    paleta_no_vacia.2 idResize kmConst 0 (Except.ok imgTest) 3 3 1 _
      eval_extraer_const (by decide)⟩

end GeneradorPaleta
